import Mathlib

/-!
Verification of the audio executor bridge in `src/audio.rs` of
capturecard-display: a PulseAudio mainloop driving a single top-level
task, a self-pipe cross-thread waker, a single-assignment return slot,
a subscription-to-stream bridge, and the loopback-module orchestrator.

Each definition is a shallow embedding of the corresponding Rust item;
panics are modelled as `Except.error` carrying the panic payload.
-/

namespace CCDisplay

/-! ## Cross-thread waker and the mainloop wake machinery (`PaWaker`, `PaRuntime::run` events) -/

/-- State of the wake machinery inside a running `PaRuntime::run`:
bytes pending in the self-pipe (`PaWaker::wake_by_ref` writes one `b"X"` per
call), whether the deferred poll event is currently enabled, and how many
times the task has been polled. -/
structure LoopState where
  pipeBytes : Nat
  pollEnabled : Bool
  polls : Nat
deriving Repr, DecidableEq

/-- Embeds `PaWaker::wake_by_ref`: best-effort write of one marker byte to the
pipe's write end. -/
def wake_by_ref (s : LoopState) : LoopState :=
  { s with pipeBytes := s.pipeBytes + 1 }

/-- A sequence of `k` wake requests issued between two polls. -/
def wakes : Nat → LoopState → LoopState
  | 0, s => s
  | k + 1, s => wake_by_ref (wakes k s)

/-- Embeds the drain loop of the io-event closure in `PaRuntime::run`:
`while let Ok(16) = self.wakee.read(&mut buf) {}` with `buf : [u8; 16]`.
A blocking `read` on a pipe holding `n > 0` bytes returns `min 16 n` bytes;
on an empty pipe it blocks, which we model as `none` (the closure never
returns absent further wake bytes). The loop repeats exactly while a read
returned `16` bytes. The result is the number of bytes left in the pipe
when the loop exits, or `none` if a read blocked. -/
def drainPipe (n : Nat) : Option Nat :=
  if n = 0 then none
  else
    let r := min 16 n
    if r = 16 then drainPipe (n - 16) else some (n - r)
termination_by n
decreasing_by omega

/-- Embeds the io-event closure registered on the wake pipe's read side in
`PaRuntime::run`: drain the pipe, then `ev.enable()` the deferred poll event.
`none` means the closure is stuck in a blocking `read`, so the poll event is
never re-enabled by this firing. -/
def ioEvent (s : LoopState) : Option LoopState :=
  match drainPipe s.pipeBytes with
  | some rem => some { s with pipeBytes := rem, pollEnabled := true }
  | none => none

/-- Embeds the scheduling skeleton of the deferred-event closure in
`PaRuntime::run`: if enabled, it first disables itself (`ev.disable()`) and
then polls the task once; if disabled, the mainloop does not fire it. -/
def pollEvent (s : LoopState) : LoopState :=
  if s.pollEnabled then { s with pollEnabled := false, polls := s.polls + 1 } else s

/-! ## `PaRuntime::run`: task completion and panic propagation -/

/-- Outcome of one firing of the deferred poll event, i.e. one
`catch_unwind(|| fut.as_mut().poll(&mut cx))` in `PaRuntime::run`:
the poll is pending, completed with a value, or panicked with a payload. -/
inductive PollOut (R : Type) where
  | pending
  | ready (r : R)
  | panic (msg : String)
deriving Repr, DecidableEq

/-- State threaded through the deferred-event closure of `PaRuntime::run`:
the `Rc<Cell<Option<Result<R, payload>>>>` return slot and the status passed
to `looop2.quit` once called. -/
structure RunState (R : Type) where
  retSlot : Option (Except String R)
  quitStatus : Option Nat

/-- Embeds the body of the deferred-event closure in `PaRuntime::run` after
`ev.disable()`: a panic stores the payload and quits with status 111; a
ready value is stored and the loop quits with status 0; a pending poll
leaves the state unchanged. -/
def deferredStep {R : Type} : PollOut R → RunState R → RunState R
  | .pending, s => s
  | .ready r, _ => ⟨some (Except.ok r), some 0⟩
  | .panic m, _ => ⟨some (Except.error m), some 111⟩

/-- The mainloop run from the perspective of the deferred poll event: each
list element is one firing of the event; the loop stops once `quit` was
called. -/
def runLoop {R : Type} : List (PollOut R) → RunState R → RunState R
  | [], s => s
  | o :: os, s => if s.quitStatus.isSome then s else runLoop os (deferredStep o s)

/-- Embeds `PaRuntime::run`'s observable outcome for a given sequence of poll
firings: `some (status, Except.ok r)` means the loop quit with `status` and
`run` returns `r`; `some (status, Except.error m)` means `run` re-raises the
captured panic payload `m` via `resume_unwind` after the loop stopped;
`none` means the loop never quit within the given firings. -/
def paRun {R : Type} (outs : List (PollOut R)) : Option (Nat × Except String R) :=
  match runLoop outs ⟨none, none⟩ with
  | ⟨some r, some q⟩ => some (q, r)
  | _ => none

/-! ## `wake_on_op` -/

/-- Payload of the `panic!` raised by `wake_on_op` on a cancelled operation. -/
def cancelledMsg : String :=
  "cancelled"

/-- Observable states of a native `pulse::operation::Operation`. -/
inductive OpState where
  | running
  | done
  | cancelled
deriving Repr, DecidableEq

/-- What `wake_on_op` does to the operation's state callback on one poll. -/
inductive CbAction where
  | detach
  | install
deriving Repr, DecidableEq

/-- Embeds one poll of the future built by `wake_on_op`: run the caller's
predicate `f`; if it is ready, detach the operation's state callback and
return the value; otherwise, if the operation reports `Cancelled`, panic
with `"cancelled"`; otherwise install a state callback that wakes the task
and stay pending. -/
def wake_on_op_poll {T : Type} (fres : Option T) (st : OpState) :
    Except String (Option T × CbAction) :=
  match fres with
  | some t => Except.ok (some t, CbAction.detach)
  | none =>
    if st = OpState.cancelled then Except.error cancelledMsg
    else Except.ok (none, CbAction.install)

/-! ## Helper lemmas -/

lemma wakes_eq (k : Nat) (s : LoopState) :
    wakes k s = ⟨s.pipeBytes + k, s.pollEnabled, s.polls⟩ := by
  induction k with
  | zero => simp [wakes]
  | succ k ih =>
    simp [wakes, ih, wake_by_ref]
    omega

lemma drainPipe_sixteen : drainPipe 16 = none := by
  rw [drainPipe]
  norm_num
  rw [drainPipe]
  simp

lemma drainPipe_fifteen : drainPipe 15 = some 0 := by
  rw [drainPipe]
  norm_num

lemma drainPipe_seventeen : drainPipe 17 = some 0 := by
  rw [drainPipe]
  norm_num
  rw [drainPipe]
  norm_num

lemma runLoop_stopped {R : Type} (os : List (PollOut R)) (s : RunState R)
    (h : s.quitStatus.isSome) : runLoop os s = s := by
  cases os with
  | nil => rfl
  | cons o os => simp [runLoop, h]

lemma runLoop_pending_skip {R : Type} (pre : List (PollOut R))
    (h : ∀ o ∈ pre, o = PollOut.pending) (os : List (PollOut R)) :
    runLoop (pre ++ os) ⟨none, none⟩ = runLoop os ⟨none, none⟩ := by
  induction pre with
  | nil => rfl
  | cons o pre ih =>
    have ho : o = PollOut.pending := h o (by simp)
    subst ho
    show runLoop (PollOut.pending :: (pre ++ os)) ⟨none, none⟩ = _
    rw [runLoop]
    simp only [Option.isSome_none, Bool.false_eq_true, if_false]
    exact ih (fun o hm => h o (by simp [hm]))

lemma paRun_resolves_ready {R : Type} (pre rest : List (PollOut R))
    (h : ∀ o ∈ pre, o = PollOut.pending) (r : R) :
    paRun (pre ++ PollOut.ready r :: rest) = some (0, Except.ok r) := by
  have hr : runLoop (PollOut.ready r :: rest) (⟨none, none⟩ : RunState R)
      = ⟨some (Except.ok r), some 0⟩ := by
    rw [runLoop]
    simp only [Option.isSome_none, Bool.false_eq_true, if_false, deferredStep]
    exact runLoop_stopped _ _ rfl
  simp only [paRun]
  rw [runLoop_pending_skip pre h, hr]

lemma paRun_resolves_panic {R : Type} (pre rest : List (PollOut R))
    (h : ∀ o ∈ pre, o = PollOut.pending) (m : String) :
    paRun (pre ++ PollOut.panic m :: rest) = some (111, Except.error m) := by
  have hm : runLoop (PollOut.panic m :: rest) (⟨none, none⟩ : RunState R)
      = ⟨some (Except.error m), some 111⟩ := by
    rw [runLoop]
    simp only [Option.isSome_none, Bool.false_eq_true, if_false, deferredStep]
    exact runLoop_stopped _ _ rfl
  simp only [paRun]
  rw [runLoop_pending_skip pre h, hm]

/-- Payload used to exercise the panic path of `paRun` on concrete runs. -/
def demoMsg : String :=
  "boom"

/-! ## Claim theorems: runtime and waker -/

/-- C1 (code bug): with exactly 16 wake bytes pending, the io-event drain
loop `while let Ok(16) = read` consumes the 16 available bytes and then
issues another blocking read on the now-empty pipe, so the closure never
returns and the deferred poll event is not re-enabled (`ioEvent ... = none`):
the task is not re-polled until a further wake arrives, contradicting the
claimed "drain all then re-poll exactly once" behaviour. With 15 or 17
pending bytes the drain does terminate with an empty pipe, the poll event is
re-enabled, and the next deferred firing polls exactly once and disables
itself. -/
theorem wake_drain_blocks_on_sixteen :
    ioEvent (wakes 16 ⟨0, false, 0⟩) = none
  ∧ ioEvent (wakes 15 ⟨0, false, 0⟩) = some ⟨0, true, 0⟩
  ∧ ioEvent (wakes 17 ⟨0, false, 0⟩) = some ⟨0, true, 0⟩
  ∧ pollEvent ⟨0, true, 0⟩ = ⟨0, false, 1⟩
  ∧ pollEvent ⟨0, false, 1⟩ = ⟨0, false, 1⟩ := by
  refine ⟨?_, ?_, ?_, rfl, rfl⟩
  · rw [wakes_eq]
    simp [ioEvent, drainPipe_sixteen]
  · rw [wakes_eq]
    simp [ioEvent, drainPipe_fifteen]
  · rw [wakes_eq]
    simp [ioEvent, drainPipe_seventeen]

/-- C2: for any run whose polls are pending up to a first resolving poll, a
`Ready` value is stored, the loop quits with status 0 and `run` returns the
value; a panic payload is captured, the loop quits with the distinguished
status 111, and the payload is re-raised to `run`'s caller (`Except.error`),
never swallowed. -/
theorem run_completion_and_panic {R : Type} (pre rest : List (PollOut R))
    (h : ∀ o ∈ pre, o = PollOut.pending) :
    (∀ r : R, paRun (pre ++ PollOut.ready r :: rest) = some (0, Except.ok r))
  ∧ (∀ m : String, paRun (pre ++ PollOut.panic m :: rest) = some (111, Except.error m)) := by
  exact ⟨paRun_resolves_ready pre rest h, paRun_resolves_panic pre rest h⟩

/-- Witness for C2 at a concrete run: one pending poll followed by
completion with `7`, and one pending poll followed by a panic. -/
theorem run_completion_and_panic_witness :
    paRun ([PollOut.pending, PollOut.ready 7] : List (PollOut Nat)) = some (0, Except.ok 7)
  ∧ paRun ([PollOut.pending, PollOut.panic demoMsg] : List (PollOut Nat))
      = some (111, Except.error demoMsg) := by
  have h1 := (run_completion_and_panic (R := Nat) [PollOut.pending] []
    (by intro o ho; simpa using ho)).1 7
  have h2 := (run_completion_and_panic (R := Nat) [PollOut.pending] []
    (by intro o ho; simpa using ho)).2 demoMsg
  exact ⟨h1, h2⟩

/-- C3: when the caller's predicate in `wake_on_op` yields no value and the
operation's reported state is `Cancelled`, the poll panics with payload
`"cancelled"` rather than returning; through the runtime's panic escalation
the loop quits with status 111 and the panic is re-raised, so cancellation
is never surfaced as a recoverable outcome. -/
theorem wake_on_op_cancellation_fatal {T : Type} (fres : Option T) (st : OpState)
    (h1 : fres = none) (h2 : st = OpState.cancelled) :
    wake_on_op_poll fres st = Except.error cancelledMsg
  ∧ paRun ([PollOut.panic cancelledMsg] : List (PollOut Unit))
      = some (111, Except.error cancelledMsg) := by
  subst h1
  subst h2
  exact ⟨by simp [wake_on_op_poll], rfl⟩

/-- Witness for C3: the cancelled-while-pending poll at `T := Nat`. -/
theorem wake_on_op_cancellation_fatal_witness :
    wake_on_op_poll (none : Option Nat) OpState.cancelled = Except.error cancelledMsg :=
  (wake_on_op_cancellation_fatal (none : Option Nat) OpState.cancelled rfl rfl).1

/-! ## `ReturnSlot` -/

/-- Joint state of a `ReturnSlot<T>` and the closure made by
`ReturnSlot::callback`: whether the closure still holds its cloned `Rc`
(its captured `Option<Rc<Cell<Option<T>>>>` is `Some`), the contents of the
shared cell, and how many `"return cb called multiple times"` reports were
printed. -/
structure SlotState (T : Type) where
  cbHoldsRc : Bool
  cell : Option T
  logged : Nat
deriving Repr, DecidableEq

/-- State right after `ReturnSlot::new()` and `ReturnSlot::callback()`: the
cell is empty and the closure holds its cloned `Rc`. -/
def initSlot {T : Type} : SlotState T :=
  ⟨true, none, 0⟩

/-- Embeds one invocation of the closure returned by `ReturnSlot::callback`:
the first invocation takes the captured `Rc` out of the closure (releasing
the reference when the arm ends) and stores the value in the cell; any later
invocation finds the `Option<Rc>` already taken and only logs. -/
def callbackStep {T : Type} (s : SlotState T) (val : T) : SlotState T :=
  if s.cbHoldsRc then { s with cbHoldsRc := false, cell := some val }
  else { s with logged := s.logged + 1 }

/-- A whole sequence of invocations of the callback closure. -/
def invokeAll {T : Type} : SlotState T → List T → SlotState T
  | s, [] => s
  | s, v :: vs => invokeAll (callbackStep s v) vs

/-- Embeds the completion predicate of `ReturnSlot::wait` (the closure passed
to `wake_on_op`): `self.slot.take()` — ready with the taken value when the
cell is occupied, pending otherwise. -/
def waitPoll {T : Type} (s : SlotState T) : Option T × SlotState T :=
  (s.cell, { s with cell := none })

lemma invokeAll_consumed {T : Type} (vals : List T) (s : SlotState T)
    (h : s.cbHoldsRc = false) :
    invokeAll s vals = { s with logged := s.logged + vals.length } := by
  induction vals generalizing s with
  | nil => simp [invokeAll]
  | cons v vs ih =>
    rw [invokeAll, callbackStep, if_neg (by simp [h])]
    rw [ih _ (by simp [h])]
    simp
    omega

lemma invokeAll_init_cons {T : Type} (v : T) (vs : List T) :
    invokeAll initSlot (v :: vs) = ⟨false, some v, vs.length⟩ := by
  rw [invokeAll]
  have hstep : callbackStep (initSlot : SlotState T) v = ⟨false, some v, 0⟩ := rfl
  rw [hstep, invokeAll_consumed vs _ rfl]
  simp

/-! ## Claim theorems: `ReturnSlot` -/

/-- C4: for any sequence of invocations of the callback of a fresh
`ReturnSlot`, only the first invocation writes into the cell; every later
invocation is logged (one report each) and leaves the cell unchanged, and
the consumer's `wait` predicate delivers the first written value. -/
theorem returnslot_first_write_wins {T : Type} (v : T) (vs : List T) :
    invokeAll initSlot (v :: vs) = ⟨false, some v, vs.length⟩
  ∧ (waitPoll (invokeAll initSlot (v :: vs))).1 = some v := by
  refine ⟨invokeAll_init_cons v vs, ?_⟩
  rw [invokeAll_init_cons]
  rfl

/-- C8: whenever the `ReturnSlot::wait` predicate signals completion (the
cell is occupied after some sequence of callback invocations, as in
`load_module` / `unload_module`), the callback closure no longer holds its
`Rc` reference to the slot: completion is never signaled while the callback
path still references the slot, so the waiting side can take exclusive
ownership. -/
theorem returnslot_wait_requires_exclusive {T : Type} (vs : List T)
    (h : ((waitPoll (invokeAll initSlot vs)).1).isSome = true) :
    (invokeAll initSlot vs).cell.isSome = true
  ∧ (invokeAll initSlot vs).cbHoldsRc = false := by
  cases vs with
  | nil => simp [invokeAll, initSlot, waitPoll] at h
  | cons v vs =>
    rw [invokeAll_init_cons] at h ⊢
    exact ⟨h, rfl⟩

/-- Witness for C8: a single callback invocation with value `5`. -/
theorem returnslot_wait_requires_exclusive_witness :
    (invokeAll initSlot [5]).cell.isSome = true
  ∧ (invokeAll initSlot [5]).cbHoldsRc = false :=
  returnslot_wait_requires_exclusive [5] (by decide)

/-! ## Subscription bridge (`subscribe`) -/

/-- The `pulse::context::subscribe::Operation` variants matched by the
orchestrator (`New`, `Changed`, `Removed`). -/
inductive SubOp where
  | new
  | changed
  | removed
deriving Repr, DecidableEq

/-- A subscription event as queued by the `set_subscribe_callback` closure:
the unpacked (facility, operation, index) tuple. The facility kind is
abstracted as a number since `audio_loop` ignores it (`let (_facility, ..)`). -/
structure SubEvent where
  facility : Nat
  op : SubOp
  index : Nat
deriving Repr, DecidableEq

/-- Native calls issued to the audio server by the code under scrutiny.
`loadLoopback i` stands for
`load_module("module-loopback", "source={i} source_dont_move=true", ..)`. -/
inductive Effect where
  | subscribeRequest (mask : Nat)
  | listSources
  | loadLoopback (sourceIndex : Nat)
  | unloadModule (id : Nat)
deriving Repr, DecidableEq

/-- Modelled from the flume crate (an external dependency): a bounded
channel's queue together with its capacity. -/
structure Chan (A : Type) where
  cap : Nat
  queue : List A
deriving Repr, DecidableEq

/-- Modelled from flume's documented `try_send` semantics on a bounded
channel: enqueue iff fewer than `cap` messages are queued, otherwise drop
the message; never blocks. -/
def try_send {A : Type} (c : Chan A) (a : A) : Chan A × Bool :=
  if c.queue.length < c.cap then ({ c with queue := c.queue ++ [a] }, true)
  else (c, false)

/-- Embeds `subscribe`: issue one native subscribe request for the interest
mask (fire-and-forget, nothing awaited) and create the bounded channel of
capacity 32 whose receiver is returned as a stream. -/
def subscribe (mask : Nat) : List Effect × Chan SubEvent :=
  ([Effect.subscribeRequest mask], ⟨32, []⟩)

/-- Panic payload of `Option::unwrap` on `None`. -/
def unwrapMsg : String :=
  "called unwrap on a None value"

/-- Embeds the closure installed by `ctx.set_subscribe_callback` in
`subscribe`: unwrap the optional facility and operation (`.unwrap()` panics
if the native side supplies `None`), pack the tuple and `try_send` it,
discarding the result (`let _ = ..`), so a full queue drops the event and
the native loop thread is never blocked. -/
def subscribeCallback (tx : Chan SubEvent) (facility : Option Nat)
    (op : Option SubOp) (idx : Nat) : Except String (Chan SubEvent) :=
  match facility, op with
  | some f, some o => Except.ok (try_send tx ⟨f, o, idx⟩).1
  | _, _ => Except.error unwrapMsg

/-- Result of polling the receiver stream for its next item. -/
inductive StreamPoll (A : Type) where
  | item (a : A) (rest : Chan A)
  | ended
  | pending
deriving Repr, DecidableEq

/-- Modelled from flume's `Receiver::into_stream` semantics: yield the
oldest queued item; on an empty queue the stream ends if the sender was
dropped, otherwise the poll is pending. -/
def recvStreamNext {A : Type} (c : Chan A) (senderAlive : Bool) : StreamPoll A :=
  match c.queue with
  | a :: rest => StreamPoll.item a { c with queue := rest }
  | [] => if senderAlive then StreamPoll.pending else StreamPoll.ended

/-- Embeds `events.next().await.unwrap()` in `audio_loop`: a pending stream
suspends (`Except.ok none`), an item is returned, and an ended stream makes
the `.unwrap()` panic during the poll. -/
def nextEventUnwrap (p : StreamPoll SubEvent) : Except String (Option SubEvent) :=
  match p with
  | StreamPoll.item a _ => Except.ok (some a)
  | StreamPoll.pending => Except.ok none
  | StreamPoll.ended => Except.error unwrapMsg

/-! ## Orchestrator (`audio_loop`) -/

/-- Orchestrator bookkeeping in `audio_loop`: the loaded module id
(`module_id`) and the recorded source index of the current iteration
(`source_index`); `none` source index is the Idle state. -/
structure OrchState where
  moduleId : Option Nat
  sourceIndex : Option Nat
deriving Repr, DecidableEq

/-- Whether one iteration of the inner event loop in `audio_loop` breaks
back to the outer search loop or keeps consuming events. -/
inductive EventOutcome where
  | exitToSearch
  | stay
deriving Repr, DecidableEq

/-- Embeds the `match op` body of the inner event loop in `audio_loop`:
`New` while no source is recorded breaks to a fresh search; `Removed` whose
index equals the recorded source index clears `module_id` and breaks; every
other combination does nothing. The third component lists the native calls
issued by the handler (there are none in any arm). -/
def eventStep (st : OrchState) (ev : SubEvent) : OrchState × EventOutcome × List Effect :=
  match ev.op with
  | SubOp.new =>
    if st.sourceIndex = none then (st, EventOutcome.exitToSearch, [])
    else (st, EventOutcome.stay, [])
  | SubOp.removed =>
    if some ev.index = st.sourceIndex then
      ({ st with moduleId := none }, EventOutcome.exitToSearch, [])
    else (st, EventOutcome.stay, [])
  | SubOp.changed => (st, EventOutcome.stay, [])

/-- A source entry as observed by the predicate in `find_and_load_module`:
the `device.form_factor` property bytes, the source name, and the index. -/
structure SourceInfo where
  formFactor : Option (List Nat)
  name : Option String
  index : Nat
deriving Repr, DecidableEq

/-- The byte string `b"webcam"`. -/
def webcamBytes : List Nat :=
  [119, 101, 98, 99, 97, 109]

/-- Embeds the trailing-NUL strip in `find_and_load_module` (the
`split_last` pattern match on the property bytes): drop one trailing zero
byte of the property value if present. -/
def stripTrailingNul (b : List Nat) : List Nat :=
  match b.getLast? with
  | some 0 => b.dropLast
  | _ => b

/-- Embeds the closure passed to `get_source_info_list` in
`find_and_load_module`: keep a source iff its NUL-stripped
`device.form_factor` equals `b"webcam"`, yielding its name and index. -/
def qualifies (info : SourceInfo) : Option (Option String × Nat) :=
  if info.formFactor.map stripTrailingNul = some webcamBytes then
    some (info.name, info.index)
  else none

/-- Embeds `find_and_load_module`: list the sources, take the first
qualifying one; with none, log and return `Ok(None)`; otherwise load a
loopback module against its index and return `Ok(Some((module_id, index)))`.
`sources` is the server's source list and `serverModId` the module id the
server assigns to the load request; the second component lists the native
calls issued. -/
def find_and_load_module (sources : List SourceInfo) (serverModId : Nat) :
    Option (Nat × Nat) × List Effect :=
  match (sources.filterMap qualifies).head? with
  | none => (none, [Effect.listSources])
  | some (_, index) =>
    (some (serverModId, index), [Effect.listSources, Effect.loadLoopback index])

/-- Observable outcome of the shutdown path of `audio_loop`: which module
ids were unloaded, whether an unload failure was logged, whether the
acknowledgement was sent on `done_ch.0`, and whether the task completed. -/
structure ShutdownResult where
  unloads : List Nat
  loggedFailure : Bool
  ackSent : Bool
  terminated : Bool
deriving Repr, DecidableEq

/-- Embeds the shutdown path of `audio_loop` (after the `select_biased!`
resolves to the shutdown signal): if a module id is recorded, attempt one
unload of exactly that id and log on failure; then `try_send` the
acknowledgement and return from the task. `unloadOk` is the boolean result
of `unload_module`. -/
def shutdown_path (moduleId : Option Nat) (unloadOk : Bool) : ShutdownResult :=
  match moduleId with
  | some mid => ⟨[mid], !unloadOk, true, true⟩
  | none => ⟨[], false, true, true⟩

/-! ## Claim theorems: orchestrator and subscription bridge -/

/-- C5: while Active (a source index is recorded), a `Removed` event with
the matching index, and only that event, makes the inner loop exit back to
the search (clearing the module id); while Idle a `New` event exits to a
fresh search; every other (operation, index) combination leaves the state
untouched and keeps consuming events. -/
theorem subscription_event_dispatch (mid midI : Option Nat) (i : Nat) (ev : SubEvent) :
    ((eventStep ⟨mid, some i⟩ ev).2.1 = EventOutcome.exitToSearch
      ↔ ev.op = SubOp.removed ∧ ev.index = i)
  ∧ (ev.op = SubOp.removed → ev.index = i →
      eventStep ⟨mid, some i⟩ ev = (⟨none, some i⟩, EventOutcome.exitToSearch, []))
  ∧ (¬(ev.op = SubOp.removed ∧ ev.index = i) →
      eventStep ⟨mid, some i⟩ ev = (⟨mid, some i⟩, EventOutcome.stay, []))
  ∧ ((eventStep ⟨midI, none⟩ ev).2.1 = EventOutcome.exitToSearch ↔ ev.op = SubOp.new)
  ∧ (ev.op ≠ SubOp.new → eventStep ⟨midI, none⟩ ev = (⟨midI, none⟩, EventOutcome.stay, [])) := by
  obtain ⟨f, op, idx⟩ := ev
  cases op <;>
    by_cases hidx : idx = i <;>
    subst_vars <;>
    simp_all [eventStep]

/-- Witness for C5: a matching `Removed` event at index 7 while Active with
module 42 transitions to Idle. -/
theorem subscription_event_dispatch_witness :
    eventStep ⟨some 42, some 7⟩ ⟨0, SubOp.removed, 7⟩
      = (⟨none, some 7⟩, EventOutcome.exitToSearch, []) :=
  (subscription_event_dispatch (some 42) none 7 ⟨0, SubOp.removed, 7⟩).2.1 rfl rfl

/-- C6 (counterexample): Active with module 42 bound to source 7; the
matching `Removed` event merely clears the recorded module id and exits to
the search — the handler issues no native call at all (in particular no
`unload_module(42)`), the subsequent Idle-entry search only lists sources
and loads a fresh loopback, and the shutdown path no longer unloads since
the id was cleared. Module 42 is never unloaded, contradicting the claimed
unload-on-removal. -/
theorem removed_event_unloads_nothing_cex :
    eventStep ⟨some 42, some 7⟩ ⟨0, SubOp.removed, 7⟩
      = (⟨none, some 7⟩, EventOutcome.exitToSearch, [])
  ∧ Effect.unloadModule 42 ∉ (eventStep ⟨some 42, some 7⟩ ⟨0, SubOp.removed, 7⟩).2.2
  ∧ Effect.unloadModule 42 ∉ (find_and_load_module [⟨some webcamBytes, none, 9⟩] 50).2
  ∧ (shutdown_path none true).unloads = [] := by
  decide

/-- C6 (amended): when the orchestrator is Active with a loaded module and
a `Removed` event matching the recorded source index arrives, it clears the
recorded module id and returns to the Idle search without issuing any
unload: the event handler emits no native call, the Idle-entry search emits
only list/load calls, and the shutdown path unloads nothing once the id is
cleared. -/
theorem removed_event_clears_module_without_unload (mid i f : Nat)
    (sources : List SourceInfo) (serverModId id0 : Nat) (unloadOk : Bool) :
    eventStep ⟨some mid, some i⟩ ⟨f, SubOp.removed, i⟩
      = (⟨none, some i⟩, EventOutcome.exitToSearch, [])
  ∧ Effect.unloadModule id0 ∉ (find_and_load_module sources serverModId).2
  ∧ (shutdown_path none unloadOk).unloads = [] := by
  refine ⟨by simp [eventStep], ?_, rfl⟩
  unfold find_and_load_module
  cases h : (sources.filterMap qualifies).head? with
  | none => simp
  | some p =>
    obtain ⟨nm, idx⟩ := p
    simp

/-- Witness for the amended C6 at module 42, source 7, an empty source
list for the re-entered search. -/
theorem removed_event_clears_module_without_unload_witness :
    eventStep ⟨some 42, some 7⟩ ⟨0, SubOp.removed, 7⟩
      = (⟨none, some 7⟩, EventOutcome.exitToSearch, [])
  ∧ Effect.unloadModule 42 ∉ (find_and_load_module [] 50).2
  ∧ (shutdown_path none true).unloads = [] :=
  removed_event_clears_module_without_unload 42 7 0 [] 50 42 true

/-- C7: on shutdown with a recorded module id, exactly that id is unloaded
once, the acknowledgement is sent and the task terminates whether or not
the unload succeeded; a failed unload is only logged. -/
theorem shutdown_unloads_active_module (mid : Nat) (unloadOk : Bool) :
    (shutdown_path (some mid) unloadOk).unloads = [mid]
  ∧ (shutdown_path (some mid) unloadOk).ackSent = true
  ∧ (shutdown_path (some mid) unloadOk).terminated = true
  ∧ (shutdown_path (some mid) unloadOk).loggedFailure = !unloadOk :=
  ⟨rfl, rfl, rfl, rfl⟩

/-- C9: `subscribe` issues exactly one fire-and-forget native subscribe
request and creates a bounded channel of capacity 32; the installed
callback try-sends the unpacked tuple without blocking — appending when
fewer than 32 events are queued, dropping the event when the queue is
full — and the receiver stream ends once the sender is dropped and the
queue is empty. -/
theorem subscribe_bridge_bounded (mask : Nat) (c : Chan SubEvent)
    (f idx : Nat) (o : SubOp) :
    (subscribe mask).1 = [Effect.subscribeRequest mask]
  ∧ (subscribe mask).2 = ⟨32, []⟩
  ∧ (c.queue.length < c.cap →
      subscribeCallback c (some f) (some o) idx
        = Except.ok ⟨c.cap, c.queue ++ [⟨f, o, idx⟩]⟩)
  ∧ (¬ c.queue.length < c.cap →
      subscribeCallback c (some f) (some o) idx = Except.ok c)
  ∧ (∀ cap, recvStreamNext (⟨cap, []⟩ : Chan SubEvent) false = StreamPoll.ended) := by
  refine ⟨rfl, rfl, ?_, ?_, fun cap => rfl⟩
  · intro h
    simp [subscribeCallback, try_send, h]
  · intro h
    simp [subscribeCallback, try_send, h]

/-- Witness for C9: a send into an empty capacity-32 channel and a send
into a full one. -/
theorem subscribe_bridge_bounded_witness :
    subscribeCallback ⟨32, []⟩ (some 1) (some SubOp.new) 2
      = Except.ok ⟨32, [⟨1, SubOp.new, 2⟩]⟩ :=
  (subscribe_bridge_bounded 0 ⟨32, []⟩ 1 2 SubOp.new).2.2.1 (by decide)

/-- C10: when the subscription stream has ended (empty queue, sender
dropped), `events.next().await.unwrap()` panics during the poll, and the
runtime escalates: the loop quits with status 111 and the panic is
re-raised to the caller of `run`; there is no graceful path. -/
theorem stream_end_panics_orchestrator (c : Chan SubEvent) (h : c.queue = []) :
    nextEventUnwrap (recvStreamNext c false) = Except.error unwrapMsg
  ∧ ∀ pre : List (PollOut Unit), (∀ o ∈ pre, o = PollOut.pending) →
      paRun (pre ++ [PollOut.panic unwrapMsg]) = some (111, Except.error unwrapMsg) := by
  constructor
  · obtain ⟨cap, q⟩ := c
    simp only at h
    subst h
    rfl
  · intro pre hp
    exact paRun_resolves_panic pre [] hp unwrapMsg

/-- Witness for C10: the empty ended stream and the shortest panicking run. -/
theorem stream_end_panics_orchestrator_witness :
    nextEventUnwrap (recvStreamNext (⟨32, []⟩ : Chan SubEvent) false)
      = Except.error unwrapMsg
  ∧ paRun ([PollOut.panic unwrapMsg] : List (PollOut Unit))
      = some (111, Except.error unwrapMsg) := by
  have h := stream_end_panics_orchestrator ⟨32, []⟩ rfl
  exact ⟨h.1, h.2 [] (by simp)⟩

end CCDisplay
